import Mathlib

/-!
# Verification of the smart-home dashboard state/derivation subsystem

Shallow embedding of the repository's two source files:

* `server/server.js` — the in-memory device state, the reading simulator
  (`updateFakeReadings`), the alert rule and the `/api/control` handler.
* `src/App.jsx` — the sync client: polling handlers, optimistic toggle,
  summary metrics (`useMemo`) and the pie-chart computation
  (`PowerPieChart`).

JavaScript numbers are modelled as `ℚ` (the program only adds, multiplies,
divides and compares; no float-rounding behaviour is relied on by any claim,
which all speak of tolerances `ε`).  `Math.random()` is modelled by an
explicit per-load noise parameter.  JavaScript objects used as string-keyed
maps are modelled as association lists `List (String × _)`, which preserves
the key-insertion order the code iterates in.  Field accesses that may be
absent on the wire (client side) are `Option`s; the JS `||`/`??` fallbacks
are modelled by explicit helper functions.  A JS expression that would throw
a `TypeError` (reading `.on` of `undefined`) makes the modelled function
return `none`.
-/

/-- One electrical load, exactly the fields of `state.loads[id]` in
`server/server.js`. -/
structure Load where
  name : String
  «on» : Bool
  voltage_V : ℚ
  current_A : ℚ
  power_W : ℚ
  energy_Wh : ℚ
deriving DecidableEq, Repr

/-- The `thresholds` record of the server state. -/
structure Thresholds where
  highUsage_W : ℚ
deriving DecidableEq, Repr

/-- One alert object as pushed by `updateFakeReadings`. -/
structure Alert where
  type : String
  loadId : String
  message : String
  timestamp : ℤ
deriving DecidableEq, Repr

/-- The whole server-side device state (`let state = {...}` in
`server/server.js`). -/
structure DeviceState where
  timestamp : ℤ
  loads : List (String × Load)
  thresholds : Thresholds
  alerts : List Alert
deriving DecidableEq, Repr

/-- The seed state created at server startup (`server/server.js` lines
12-44); the startup timestamp is a parameter. -/
def initialState (t0 : ℤ) : DeviceState :=
  { timestamp := t0
    loads :=
      [ ("lamp",
          { name := "Desk Lamp", «on» := true, voltage_V := 120, current_A := 0.25,
            power_W := 30, energy_Wh := 12.5 }),
        ("charger",
          { name := "Phone Charger", «on» := true, voltage_V := 5, current_A := 1.2,
            power_W := 6, energy_Wh := 3.4 }),
        ("fan",
          { name := "Desk Fan", «on» := false, voltage_V := 120, current_A := 0,
            power_W := 0, energy_Wh := 20.1 }) ]
    thresholds := { highUsage_W := 50 }
    alerts := [] }

/-- The per-load body of the `for` loop of `updateFakeReadings`
(`server/server.js` lines 51-63).  `noise` stands for the value
`(Math.random() - 0.5) * 0.05` drawn for this load.  When on, the new
current is clamped at 0, the new power is recomputed from the new current,
and the energy accumulates the new power over a nominal 1-second cycle. -/
def updateLoad (noise : ℚ) (l : Load) : Load :=
  if l.«on» = false then
    { l with current_A := 0, power_W := 0 }
  else
    { l with
      current_A := max 0 (l.current_A * (1 + noise)),
      power_W := l.voltage_V * max 0 (l.current_A * (1 + noise)),
      energy_Wh := l.energy_Wh + l.voltage_V * max 0 (l.current_A * (1 + noise)) / 3600 }

/-- The alert message string `Fan above ${threshold} W`; JS number
formatting is abstracted by `toString` on `ℚ`. -/
def fanAlertMessage (thr : ℚ) : String :=
  "Fan above " ++ toString thr ++ " W"

/-- The simulation-and-alert cycle `updateFakeReadings` of
`server/server.js` (lines 47-76): updates the timestamp, rewrites every
load through `updateLoad`, then rebuilds `state.alerts` from scratch from
the fan's fresh reading.  The JS reads `state.loads.fan`; if no load has
key `"fan"` the JS would throw on `fan.on`, which the model renders as
`none`. -/
def updateFakeReadings (noise : String → ℚ) (now : ℤ) (s : DeviceState) :
    Option DeviceState :=
  match (s.loads.map fun p => (p.1, updateLoad (noise p.1) p.2)).lookup "fan" with
  | none => none
  | some fan =>
      some
        { timestamp := now
          loads := s.loads.map fun p => (p.1, updateLoad (noise p.1) p.2)
          thresholds := s.thresholds
          alerts :=
            if fan.«on» = true ∧ fan.power_W > s.thresholds.highUsage_W then
              [ { type := "HIGH_USAGE", loadId := "fan",
                  message := fanAlertMessage s.thresholds.highUsage_W,
                  timestamp := now } ]
            else [] }

/-- A JavaScript value as it can appear in the parsed JSON request body's
`on` field (`req.body.on`).  `NaN` is not representable in `ℚ`; no claim
depends on it. -/
inductive JSValue where
  | undefined
  | null
  | bool (b : Bool)
  | num (q : ℚ)
  | str (s : String)
deriving DecidableEq, Repr

/-- JavaScript truthiness, as applied by `!!on` in the control handler. -/
def truthy : JSValue → Bool
  | .undefined => false
  | .null => false
  | .bool b => b
  | .num q => !(q == 0)
  | .str s => !(s == "")

/-- The HTTP response of `POST /api/control`. -/
inductive ControlResponse where
  /-- `200 {ok:true, state}` -/
  | ok (state : DeviceState)
  /-- `400 {error:"Unknown loadId"}` -/
  | unknownLoad
deriving DecidableEq, Repr

/-- The `POST /api/control` handler (`server/server.js` lines 85-99):
looks up `loadId`; if absent, answers 400 and touches nothing; otherwise
stores `!!on` into the load's `on` flag, immediately runs
`updateFakeReadings`, and answers 200 with the updated state.  The result
pairs the server state after the call with the response sent. -/
def handleControl (noise : String → ℚ) (now : ℤ) (s : DeviceState)
    (loadId : String) (onVal : JSValue) :
    Option (DeviceState × ControlResponse) :=
  match s.loads.lookup loadId with
  | none => some (s, .unknownLoad)
  | some _ =>
      match updateFakeReadings noise now
          { s with
            loads := s.loads.map fun p =>
              (p.1, if p.1 = loadId then { p.2 with «on» := truthy onVal } else p.2) } with
      | none => none
      | some s2 => some (s2, .ok s2)

/-- The `GET /api/status` handler (`server/server.js` lines 79-82): one
simulation cycle, then the state is the response body. -/
def statusHandler (noise : String → ℚ) (now : ℤ) (s : DeviceState) :
    Option DeviceState :=
  updateFakeReadings noise now s

/-- The noise drawn by the simulator lies in `[-0.025, 0.025)`, because
`Math.random() ∈ [0, 1)` and `noise = (random - 0.5) * 0.05`. -/
def NoiseOk (noise : String → ℚ) : Prop :=
  ∀ id, -(1/40) ≤ noise id ∧ noise id < 1/40

/-- The server states reachable at runtime: the seed state, and everything
produced from a reachable state by a status poll or a control request. -/
inductive Reachable : DeviceState → Prop where
  | init (t0 : ℤ) : Reachable (initialState t0)
  | poll {s s' : DeviceState} {noise : String → ℚ} {now : ℤ} :
      Reachable s → NoiseOk noise →
      updateFakeReadings noise now s = some s' → Reachable s'
  | control {s s' : DeviceState} {noise : String → ℚ} {now : ℤ}
      {loadId : String} {v : JSValue} {r : ControlResponse} :
      Reachable s → NoiseOk noise →
      handleControl noise now s loadId v = some (s', r) → Reachable s'

/-- A load as the client sees it after JSON parsing (`src/App.jsx`).  Any
field may be absent on the wire, except `on`, whose uses in the client are
plain truthiness tests; the server always sends a boolean there. -/
structure ClientLoad where
  name : Option String
  «on» : Bool
  voltage_V : Option ℚ
  current_A : Option ℚ
  power_W : Option ℚ
  energy_Wh : Option ℚ
deriving DecidableEq, Repr

/-- The status payload as the client reads it: only the fields the client
code touches.  `totalPower_W` models the optional server-supplied aggregate
checked by `typeof status?.totalPower_W === "number"`;
`thresholds_highUsage_W` models `status?.thresholds?.highUsage_W ?? null`. -/
structure ClientStatus where
  totalPower_W : Option ℚ
  loads : Option (List (String × ClientLoad))
  thresholds_highUsage_W : Option ℚ
deriving DecidableEq, Repr

/-- The JS fallback `x || 0` on an optional number.  (`0 || 0` is `0`, so
treating `some 0` as `0` is exact.) -/
def jsOr0 (q : Option ℚ) : ℚ :=
  match q with
  | none => 0
  | some x => x

/-- The JS fallback `s || d` on an optional string (empty string is falsy). -/
def jsOrStr (s : Option String) (d : String) : String :=
  match s with
  | none => d
  | some t => if t == "" then d else t

/-- The client-side image of the seed server state's loads map, as
`/api/status` would deliver it. -/
def seedLoadsList : List (String × ClientLoad) :=
  [ ("lamp",
      { name := some "Desk Lamp", «on» := true, voltage_V := some 120,
        current_A := some 0.25, power_W := some 30, energy_Wh := some 12.5 }),
    ("charger",
      { name := some "Phone Charger", «on» := true, voltage_V := some 5,
        current_A := some 1.2, power_W := some 6, energy_Wh := some 3.4 }),
    ("fan",
      { name := some "Desk Fan", «on» := false, voltage_V := some 120,
        current_A := some 0, power_W := some 0, energy_Wh := some 20.1 }) ]

/-- The client-side image of the seed server state, as `/api/status` would
deliver it (the server sends no `totalPower_W` aggregate). -/
def seedClientStatus : ClientStatus :=
  { totalPower_W := none
    loads := some seedLoadsList
    thresholds_highUsage_W := some 50 }

/-- The record produced by the summary `useMemo` of `src/App.jsx`
(lines 79-110). -/
structure Summary where
  totalPower : ℚ
  devicesOn : ℕ
  totalDevices : ℕ
  thresholdW : Option ℚ
deriving DecidableEq, Repr

/-- The summary `useMemo` of `src/App.jsx` (lines 79-110): threshold passed
through (`?? null`); without a loads map, counts are 0 and `totalPower` is
`status?.totalPower_W ?? 0`; with one, `totalPower` prefers a numeric
server aggregate and otherwise sums `power_W || 0` over the non-fan
(monitored) entries; the counts run over all entries. -/
def summary (st : Option ClientStatus) : Summary :=
  match st.bind (fun s => s.loads) with
  | none =>
      { totalPower := jsOr0 (st.bind fun s => s.totalPower_W)
        devicesOn := 0
        totalDevices := 0
        thresholdW := st.bind fun s => s.thresholds_highUsage_W }
  | some entries =>
      { totalPower :=
          match st.bind fun s => s.totalPower_W with
          | some t => t
          | none =>
              (entries.filter fun p => !(p.1 == "fan")).foldl
                (fun acc p => acc + jsOr0 p.2.power_W) 0
        devicesOn := (entries.filter fun p => p.2.«on»).length
        totalDevices := entries.length
        thresholdW := st.bind fun s => s.thresholds_highUsage_W }

/-- One entry prepared by `PowerPieChart` (`src/App.jsx` lines 439-445):
fan excluded, name defaulted to the id, power clamped to
`Math.max(0, l.power_W || 0)`. -/
structure PieEntry where
  id : String
  name : String
  power : ℚ
deriving DecidableEq, Repr

/-- The monitored entries of the pie chart (`src/App.jsx` lines 439-445). -/
def pieEntries (loads : List (String × ClientLoad)) : List PieEntry :=
  (loads.filter fun p => !(p.1 == "fan")).map fun p =>
    { id := p.1, name := jsOrStr p.2.name p.1, power := max 0 (jsOr0 p.2.power_W) }

/-- `entries.reduce((s, e) => s + e.power, 0)` (`src/App.jsx` line 447). -/
def pieTotal (loads : List (String × ClientLoad)) : ℚ :=
  (pieEntries loads).foldl (fun acc e => acc + e.power) 0

/-- One slice of the pie chart (`src/App.jsx` lines 469-497).  The source
works in radians (start `-π/2`, span `fraction · 2π`); angles here carry
the same values converted to degrees (start `-90`, span `fraction · 360`)
so they stay in `ℚ`.  The `pathData` string and fill colour are rendering
output built from these angles through `cos`/`sin` and are not modelled. -/
structure Slice where
  key : String
  label : String
  value : ℚ
  fraction : ℚ
  startDeg : ℚ
  endDeg : ℚ
  largeArc : Bool
deriving DecidableEq, Repr

/-- The `entries.map` of `src/App.jsx` lines 469-497, with the mutable
`startAngle` accumulator made explicit: each slice spans
`fraction × 360°` from the running start angle, sets `largeArc` when the
span exceeds 180° (`angle > Math.PI`), and hands its end angle to the next
slice. -/
def mkSlices (total : ℚ) : ℚ → List PieEntry → List Slice
  | _, [] => []
  | startDeg, e :: rest =>
      { key := e.id
        label := e.name
        value := e.power
        fraction := e.power / total
        startDeg := startDeg
        endDeg := startDeg + e.power / total * 360
        largeArc := if e.power / total * 360 > 180 then true else false }
      :: mkSlices total (startDeg + e.power / total * 360) rest

/-- What `PowerPieChart` renders (`src/App.jsx` lines 428-567): a waiting
shell without data, a placeholder shell when the monitored total is at most
`0.0001`, or the slice geometry. -/
inductive PieView where
  /-- `loads` missing: the "Waiting for data..." shell. -/
  | waiting
  /-- `total <= 0.0001`: the "Monitored loads at 0 W" shell, no slices. -/
  | placeholder
  | chart (slices : List Slice)
deriving DecidableEq, Repr

/-- The `PowerPieChart` computation (`src/App.jsx` lines 428-497): entries,
total, the placeholder cut-off at `0.0001`, and the slice layout starting
at the top (`-π/2`, i.e. `-90°`). -/
def powerPieChart (loads : Option (List (String × ClientLoad))) : PieView :=
  match loads with
  | none => .waiting
  | some ls =>
      if pieTotal ls ≤ 1/10000 then .placeholder
      else .chart (mkSlices (pieTotal ls) (-90) (pieEntries ls))

/-- The slices a `PieView` draws; the waiting and placeholder shells draw
none. -/
def PieView.slices : PieView → List Slice
  | .waiting => []
  | .placeholder => []
  | .chart s => s

/-- The sync client's local state: the React state hooks of `App`
(`status`, `loading`, `error`, `lastUpdated`), the `cancelled` flag of the
polling effect's closure, and whether the `setInterval` timer registered on
mount is still installed. -/
structure ClientState where
  status : Option ClientStatus
  loading : Bool
  error : Option String
  lastUpdated : Option ℤ
  cancelled : Bool
  intervalActive : Bool
deriving DecidableEq, Repr

/-- The success continuation of `fetchStatus` (`src/App.jsx` lines 17-26),
applied to the client state at the moment the response is processed: if the
effect was cancelled the response is discarded (`if (cancelled) return`),
otherwise the snapshot replaces `status`, the error clears, the fetch time
is recorded and `loading` clears. -/
def fetchSuccess (data : ClientStatus) (now : ℤ) (c : ClientState) : ClientState :=
  if c.cancelled then c
  else
    { c with status := some data, error := none, lastUpdated := some now,
             loading := false }

/-- The catch branch of `fetchStatus` (`src/App.jsx` lines 27-33): unless
cancelled, a connectivity error is recorded and `loading` clears; the last
good `status` is kept. -/
def fetchFailure (c : ClientState) : ClientState :=
  if c.cancelled then c
  else { c with error := some "Lost connection to device", loading := false }

/-- The effect cleanup (`src/App.jsx` lines 39-42): sets `cancelled`
synchronously and clears the interval timer. -/
def teardownClient (c : ClientState) : ClientState :=
  { c with cancelled := true, intervalActive := false }

/-- A scheduled tick issues a status request exactly when the interval
timer is still installed — this is the `setInterval`/`clearInterval`
semantics the polling loop relies on. -/
def tickIssuesRequest (c : ClientState) : Bool :=
  c.intervalActive

/-- The body `POST /api/control` is sent with by `toggleLoad`:
`{ loadId, on: !currentOn }`. -/
structure ControlRequest where
  loadId : String
  «on» : Bool
deriving DecidableEq, Repr

/-- How the control fetch of `toggleLoad` resolves; `failure` covers both a
non-2xx response and a transport error, which land in the same `catch`. -/
inductive ToggleOutcome where
  | success
  | failure
deriving DecidableEq, Repr

/-- The optimistic update `{...prev.loads, [loadId]: {...prev.loads[loadId],
on: v}}`: an existing key keeps its position and gets its `on` flag
replaced; an absent key is appended as an object holding only `on` (the
spread of `undefined` contributes nothing). -/
def jsSetLoadOn (loads : List (String × ClientLoad)) (loadId : String)
    (v : Bool) : List (String × ClientLoad) :=
  if (loads.lookup loadId).isSome then
    loads.map fun p => (p.1, if p.1 = loadId then { p.2 with «on» := v } else p.2)
  else
    loads ++ [(loadId,
      { name := none, «on» := v, voltage_V := none, current_A := none,
        power_W := none, energy_Wh := none })]

/-- `toggleLoad` of `src/App.jsx` (lines 46-76), with the fetch outcome as
a parameter: the pair returned is (the control request sent, if any; the
client state after the handler runs).  A fan toggle returns before any
fetch.  On success the `setStatus` updater applies the optimistic flag
(`prev` unchanged when `null`) and the error clears; on failure only the
command error is recorded. -/
def toggleLoad (c : ClientState) (loadId : String) (currentOn : Bool)
    (outcome : ToggleOutcome) : Option ControlRequest × ClientState :=
  if loadId == "fan" then (none, c)
  else
    match outcome with
    | .success =>
        (some { loadId := loadId, «on» := !currentOn },
         { c with
           status :=
             match c.status with
             | none => none
             | some prev =>
                 some { prev with
                        loads := some (jsSetLoadOn (match prev.loads with
                          | none => []
                          | some ls => ls) loadId (!currentOn)) }
           error := none })
    | .failure =>
        (some { loadId := loadId, «on» := !currentOn },
         { c with error := some "Failed to send command" })

/-- Decidable check that a run of slices is laid out contiguously starting
at angle `a` (degrees): each slice starts where told, spans its fraction of
the full circle, and hands its end angle to the next. -/
def contiguousFrom : ℚ → List Slice → Bool
  | _, [] => true
  | a, sl :: rest =>
      (sl.startDeg == a) && (sl.endDeg == sl.startDeg + sl.fraction * 360) &&
        contiguousFrom sl.endDeg rest

/-- The seed lamp load (for concrete instantiations). -/
def lampSeed : Load :=
  { name := "Desk Lamp", «on» := true, voltage_V := 120, current_A := 0.25,
    power_W := 30, energy_Wh := 12.5 }

/-- The lamp after one zero-noise cycle: current unchanged, power
`120 × 0.25 = 30`, energy `12.5 + 30/3600`. -/
def lampAfter : Load :=
  { name := "Desk Lamp", «on» := true, voltage_V := 120, current_A := 0.25,
    power_W := 30, energy_Wh := 1501/120 }

/-- The charger after one zero-noise cycle. -/
def chargerAfter : Load :=
  { name := "Phone Charger", «on» := true, voltage_V := 5, current_A := 1.2,
    power_W := 6, energy_Wh := 2041/600 }

/-- The fan after a cycle: off, so current and power forced to 0 and energy
untouched. -/
def fanAfter : Load :=
  { name := "Desk Fan", «on» := false, voltage_V := 120, current_A := 0,
    power_W := 0, energy_Wh := 20.1 }

/-- The server state after one zero-noise cycle at time 0 from
`initialState 0`. -/
def afterInit : DeviceState :=
  { timestamp := 0
    loads := [("lamp", lampAfter), ("charger", chargerAfter), ("fan", fanAfter)]
    thresholds := { highUsage_W := 50 }
    alerts := [] }

/-- A stale alert used to show prior alerts are discarded by a cycle. -/
def staleAlert : Alert :=
  { type := "HIGH_USAGE", loadId := "fan", message := "stale", timestamp := 7 }

/-- The `on` flag the client currently shows for a load, when its state
holds a status with a loads map containing the load. -/
def clientLoadOn (c : ClientState) (loadId : String) : Option Bool :=
  match c.status with
  | none => none
  | some st =>
      match st.loads with
      | none => none
      | some ls => (ls.lookup loadId).map fun l => l.«on»

/-- A client state that has received the seed snapshot (for concrete
instantiations of the toggle behaviour). -/
def c8Client : ClientState :=
  { status := some seedClientStatus, loading := false, error := none,
    lastUpdated := some 5, cancelled := false, intervalActive := true }

/-- A loads map with a negative, a missing and an ordinary `power_W`, to
exercise the pie chart's clamping. -/
def oddLoads : List (String × ClientLoad) :=
  [ ("lamp",
      { name := some "Desk Lamp", «on» := true, voltage_V := some 120,
        current_A := some 0.1, power_W := some (-5), energy_Wh := some 1 }),
    ("charger",
      { name := none, «on» := false, voltage_V := none,
        current_A := none, power_W := none, energy_Wh := none }),
    ("heater",
      { name := some "Heater", «on» := true, voltage_V := some 230,
        current_A := none, power_W := some 10, energy_Wh := none }) ]

/-- The slice the heater contributes on `oddLoads`: the whole circle. -/
def heaterSlice : Slice :=
  { key := "heater", label := "Heater", value := 10, fraction := 1,
    startDeg := -90, endDeg := 270, largeArc := true }

/-- The slices the pie chart produces on `oddLoads`: the clamped lamp and
charger contribute degenerate zero slices, the heater the whole circle. -/
def oddSlices : List Slice :=
  [ { key := "lamp", label := "Desk Lamp", value := 0, fraction := 0,
      startDeg := -90, endDeg := -90, largeArc := false },
    { key := "charger", label := "charger", value := 0, fraction := 0,
      startDeg := -90, endDeg := -90, largeArc := false },
    heaterSlice ]

/-- Looking a key up after a key-preserving rewrite of every value finds
the rewritten value. -/
theorem lookup_map_keyed {β : Type} (f : String → β → β) (k : String) :
    ∀ (l : List (String × β)),
      (l.map fun p => (p.1, f p.1 p.2)).lookup k = (l.lookup k).map (f k) := by
  intro l
  induction l with
  | nil => rfl
  | cons p t ih =>
      obtain ⟨a, b⟩ := p
      by_cases h : k = a
      · subst h
        simp [List.lookup]
      · have hb : (k == a) = false := by simp [h]
        simp [List.lookup, hb, ih]

/-- `lookup_map_keyed` for the reading-simulator rewrite. -/
theorem lookup_map_updateLoad (noise : String → ℚ) (k : String)
    (l : List (String × Load)) :
    (l.map fun p => (p.1, updateLoad (noise p.1) p.2)).lookup k =
      (l.lookup k).map (updateLoad (noise k)) :=
  lookup_map_keyed (fun i b => updateLoad (noise i) b) k l

/-- `lookup_map_keyed` for the control handler's flag write. -/
theorem lookup_map_setOnLoad (k0 : String) (v : Bool) (k : String)
    (l : List (String × Load)) :
    (l.map fun p =>
        (p.1, if p.1 = k0 then { p.2 with «on» := v } else p.2)).lookup k =
      (l.lookup k).map (fun b => if k = k0 then { b with «on» := v } else b) :=
  lookup_map_keyed (fun i b => if i = k0 then { b with «on» := v } else b) k l

/-- `lookup_map_keyed` for the client's optimistic flag write. -/
theorem lookup_map_setOnClient (k0 : String) (v : Bool) (k : String)
    (l : List (String × ClientLoad)) :
    (l.map fun p =>
        (p.1, if p.1 = k0 then { p.2 with «on» := v } else p.2)).lookup k =
      (l.lookup k).map (fun b => if k = k0 then { b with «on» := v } else b) :=
  lookup_map_keyed (fun i b => if i = k0 then { b with «on» := v } else b) k l

/-- A successful lookup is membership. -/
theorem lookup_mem {β : Type} {k : String} {v : β} :
    ∀ {l : List (String × β)}, l.lookup k = some v → (k, v) ∈ l := by
  intro l
  induction l with
  | nil => intro h; cases h
  | cons p t ih =>
      intro h
      obtain ⟨a, b⟩ := p
      by_cases hk : k = a
      · subst hk
        simp [List.lookup] at h
        subst h
        exact List.mem_cons_self _ _
      · have hb : (k == a) = false := by simp [hk]
        simp [List.lookup, hb] at h
        exact List.mem_cons_of_mem _ (ih h)

/-- Keys absent on the left of an append are looked up on the right. -/
theorem lookup_append_of_none {β : Type} {k : String} :
    ∀ {l : List (String × β)}, l.lookup k = none →
      ∀ (l2 : List (String × β)), (l ++ l2).lookup k = l2.lookup k := by
  intro l
  induction l with
  | nil => intro _ l2; rfl
  | cons p t ih =>
      intro h l2
      obtain ⟨a, b⟩ := p
      by_cases hk : k = a
      · subst hk; simp [List.lookup] at h
      · have hb : (k == a) = false := by simp [hk]
        simp only [List.cons_append, List.lookup, hb] at h ⊢
        exact ih h l2

/-- The simulator does not touch the `on` flag. -/
theorem updateLoad_on (noise : ℚ) (l : Load) :
    (updateLoad noise l).«on» = l.«on» := by
  unfold updateLoad
  split <;> rfl

/-- The simulator does not touch the voltage. -/
theorem updateLoad_voltage (noise : ℚ) (l : Load) :
    (updateLoad noise l).voltage_V = l.voltage_V := by
  unfold updateLoad
  split <;> rfl

/-- An off load is forced to zero current and power, energy untouched. -/
theorem updateLoad_off {l : Load} (noise : ℚ) (h : l.«on» = false) :
    updateLoad noise l = { l with current_A := 0, power_W := 0 } := by
  unfold updateLoad
  rw [if_pos h]

/-- An on load gets its power recomputed from the fresh current and its
energy incremented by the fresh power over the nominal cycle. -/
theorem updateLoad_on_spec {l : Load} (noise : ℚ) (h : l.«on» = true) :
    updateLoad noise l =
      { l with
        current_A := max 0 (l.current_A * (1 + noise)),
        power_W := l.voltage_V * max 0 (l.current_A * (1 + noise)),
        energy_Wh :=
          l.energy_Wh + l.voltage_V * max 0 (l.current_A * (1 + noise)) / 3600 } := by
  unfold updateLoad
  rw [if_neg (by simp [h])]

/-- What a successful cycle produces: the new timestamp, every load passed
through `updateLoad`, thresholds untouched. -/
theorem updateFakeReadings_some {noise : String → ℚ} {now : ℤ}
    {s s' : DeviceState} (h : updateFakeReadings noise now s = some s') :
    s'.timestamp = now ∧
    s'.loads = s.loads.map (fun p => (p.1, updateLoad (noise p.1) p.2)) ∧
    s'.thresholds = s.thresholds := by
  unfold updateFakeReadings at h
  split at h
  · cases h
  · injection h with h
    subst h
    exact ⟨rfl, rfl, rfl⟩

/-- The two ways `POST /api/control` can answer. -/
theorem handleControl_cases {noise : String → ℚ} {now : ℤ} {s : DeviceState}
    {loadId : String} {v : JSValue} {s' : DeviceState} {r : ControlResponse}
    (h : handleControl noise now s loadId v = some (s', r)) :
    (s.loads.lookup loadId = none ∧ s' = s ∧ r = .unknownLoad) ∨
    (∃ l, s.loads.lookup loadId = some l ∧
      updateFakeReadings noise now
        { s with
          loads := s.loads.map fun p =>
            (p.1, if p.1 = loadId then { p.2 with «on» := truthy v } else p.2) } =
        some s' ∧
      r = .ok s') := by
  unfold handleControl at h
  split at h
  case _ heq =>
    injection h with h
    injection h with h1 h2
    exact Or.inl ⟨heq, h1.symm, h2.symm⟩
  case _ l heq =>
    split at h
    · cases h
    case _ s2 heq2 =>
      injection h with h
      injection h with h1 h2
      subst h1
      exact Or.inr ⟨l, heq, heq2, h2.symm⟩

/-- A cycle maps the loads list pointwise, so every resulting load is the
`updateLoad` image of a load of the previous state. -/
theorem mem_loads_of_cycle {noise : String → ℚ} {now : ℤ} {s s' : DeviceState}
    (h : updateFakeReadings noise now s = some s')
    {p : String × Load} (hp : p ∈ s'.loads) :
    ∃ q ∈ s.loads, p = (q.1, updateLoad (noise q.1) q.2) := by
  obtain ⟨-, hmap, -⟩ := updateFakeReadings_some h
  rw [hmap] at hp
  obtain ⟨q, hq, hpq⟩ := List.mem_map.mp hp
  exact ⟨q, hq, hpq.symm⟩

/-- No entry point of the server ever writes a voltage, so every load of
every reachable state keeps one of the nonnegative seed voltages. -/
theorem reachable_voltage_nonneg {s : DeviceState} (hr : Reachable s) :
    ∀ p ∈ s.loads, 0 ≤ p.2.voltage_V := by
  induction hr with
  | init t0 =>
      intro p hp
      simp only [initialState, List.mem_cons, List.not_mem_nil, or_false] at hp
      rcases hp with rfl | rfl | rfl <;> norm_num
  | poll _ _ h ih =>
      intro p hp
      obtain ⟨q, hq, rfl⟩ := mem_loads_of_cycle h hp
      simpa [updateLoad_voltage] using ih q hq
  | control _ _ h ih =>
      intro p hp
      rcases handleControl_cases h with ⟨-, rfl, -⟩ | ⟨l, -, hupd, -⟩
      · exact ih p hp
      · obtain ⟨q, hq, rfl⟩ := mem_loads_of_cycle hupd hp
        obtain ⟨q0, hq0, hqq⟩ := List.mem_map.mp hq
        have hv : q.2.voltage_V = q0.2.voltage_V := by
          rw [← hqq]
          dsimp only
          split <;> rfl
        simp only [updateLoad_voltage, hv]
        exact ih q0 hq0

/-- Concrete evaluation: a zero-noise cycle at time 0 on the seed state
produces `afterInit`. -/
theorem seed_cycle_eq :
    updateFakeReadings (fun _ => 0) 0 (initialState 0) = some afterInit := by
  simp [updateFakeReadings, initialState, updateLoad, afterInit, lampAfter,
    chargerAfter, fanAfter, List.lookup]
  norm_num

/-- Concrete evaluation: controlling the lamp with body `on: "false"` (a
truthy string) on the seed state keeps the lamp on and answers 200 with
the cycled state. -/
theorem seed_control_lamp_eq :
    handleControl (fun _ => 0) 0 (initialState 0) "lamp" (.str "false") =
      some (afterInit, .ok afterInit) := by
  simp [handleControl, updateFakeReadings, initialState, updateLoad, truthy,
    afterInit, lampAfter, chargerAfter, fanAfter, List.lookup]
  norm_num

/-- C1: a POST control request whose `loadId` is not a key of the loads map
answers the 400 Unknown-loadId error and returns with the entire
`DeviceState` — timestamp, loads, thresholds, alerts — exactly as it was;
in particular no simulation cycle runs. -/
theorem c1_unknown_load_unchanged
    (noise : String → ℚ) (now : ℤ) (s : DeviceState) (loadId : String) (v : JSValue)
    (h : s.loads.lookup loadId = none) :
    handleControl noise now s loadId v = some (s, .unknownLoad) := by
  unfold handleControl
  rw [h]

/-- Witness for C1: controlling the unknown load `"heater"` on the seed
state answers the error and leaves the state untouched. -/
theorem c1_witness :
    handleControl (fun _ => 0) 0 (initialState 0) "heater" (.bool true) =
      some (initialState 0, .unknownLoad) :=
  c1_unknown_load_unchanged (fun _ => 0) 0 (initialState 0) "heater" (.bool true)
    (by decide)

/-- C2: after any simulation cycle (run by every status poll and every
successful control application), every load that is off reads zero current
and power, and every load that is on satisfies
`power_W = voltage_V × current_A`, hence within every positive tolerance. -/
theorem c2_readings_invariant
    (noise : String → ℚ) (now : ℤ) (s s' : DeviceState) (p : String × Load) (ε : ℚ)
    (hε : 0 < ε)
    (h : updateFakeReadings noise now s = some s')
    (hp : p ∈ s'.loads) :
    (p.2.«on» = false → p.2.current_A = 0 ∧ p.2.power_W = 0) ∧
    (p.2.«on» = true →
      p.2.power_W = p.2.voltage_V * p.2.current_A ∧
      |p.2.power_W - p.2.voltage_V * p.2.current_A| < ε) ∧
    statusHandler noise now s = some s' := by
  obtain ⟨q, hq, rfl⟩ := mem_loads_of_cycle h hp
  refine ⟨?_, ?_, h⟩
  · intro hoff
    dsimp only at hoff ⊢
    rw [updateLoad_on] at hoff
    rw [updateLoad_off _ hoff]
    exact ⟨rfl, rfl⟩
  · intro hon
    dsimp only at hon ⊢
    rw [updateLoad_on] at hon
    rw [updateLoad_on_spec _ hon]
    refine ⟨rfl, ?_⟩
    simpa using hε

/-- Witness for C2: the lamp after a zero-noise cycle on the seed state. -/
theorem c2_witness :
    (lampAfter.«on» = false → lampAfter.current_A = 0 ∧ lampAfter.power_W = 0) ∧
    (lampAfter.«on» = true →
      lampAfter.power_W = lampAfter.voltage_V * lampAfter.current_A ∧
      |lampAfter.power_W - lampAfter.voltage_V * lampAfter.current_A| < 1/1000) ∧
    statusHandler (fun _ => 0) 0 (initialState 0) = some afterInit :=
  c2_readings_invariant (fun _ => 0) 0 (initialState 0) afterInit ("lamp", lampAfter)
    (1/1000) (by norm_num) seed_cycle_eq (by simp [afterInit])

/-- C3: after any simulation cycle the alert list is rebuilt from scratch:
it holds exactly the single HIGH_USAGE fan alert precisely when the fresh
fan reading is on with power strictly above `thresholds.highUsage_W`, and
is empty otherwise; it never holds more than one entry, and the alerts
present before the cycle are irrelevant to its result (no accumulation). -/
theorem c3_alerts_rebuilt
    (noise : String → ℚ) (now : ℤ) (s s' : DeviceState) (fan : Load)
    (a0 : List Alert)
    (h : updateFakeReadings noise now s = some s')
    (hf : s'.loads.lookup "fan" = some fan) :
    (s'.alerts =
      if fan.«on» = true ∧ fan.power_W > s'.thresholds.highUsage_W then
        [{ type := "HIGH_USAGE", loadId := "fan",
           message := fanAlertMessage s'.thresholds.highUsage_W,
           timestamp := s'.timestamp }]
      else []) ∧
    s'.alerts.length ≤ 1 ∧
    updateFakeReadings noise now { s with alerts := a0 } = some s' := by
  have h0 : updateFakeReadings noise now { s with alerts := a0 } = some s' := h
  unfold updateFakeReadings at h
  split at h
  · cases h
  case _ fan0 heq =>
    injection h with h
    subst h
    have hff : fan0 = fan := by
      have h2 : some fan0 = some fan := heq.symm.trans hf
      injection h2
    subst hff
    refine ⟨rfl, ?_, h0⟩
    dsimp only
    split <;> simp

/-- Witness for C3: the zero-noise cycle on the seed state (fan off) yields
an empty alert list, and yields the same state even when a stale alert is
present beforehand. -/
theorem c3_witness :
    (afterInit.alerts =
      if fanAfter.«on» = true ∧ fanAfter.power_W > afterInit.thresholds.highUsage_W then
        [{ type := "HIGH_USAGE", loadId := "fan",
           message := fanAlertMessage afterInit.thresholds.highUsage_W,
           timestamp := afterInit.timestamp }]
      else []) ∧
    afterInit.alerts.length ≤ 1 ∧
    updateFakeReadings (fun _ => 0) 0 { initialState 0 with alerts := [staleAlert] } =
      some afterInit :=
  c3_alerts_rebuilt (fun _ => 0) 0 (initialState 0) afterInit fanAfter [staleAlert]
    seed_cycle_eq (by simp [afterInit, List.lookup])

/-- C5: across any simulation cycle from a reachable server state, an on
load's accumulated energy never decreases and an off load's energy is
untouched. -/
theorem c5_energy_monotone
    (noise : String → ℚ) (now : ℤ) (s s' : DeviceState) (id : String) (l l' : Load)
    (hr : Reachable s)
    (h : updateFakeReadings noise now s = some s')
    (hl : s.loads.lookup id = some l)
    (hl' : s'.loads.lookup id = some l') :
    (l.«on» = true → l.energy_Wh ≤ l'.energy_Wh) ∧
    (l.«on» = false → l'.energy_Wh = l.energy_Wh) := by
  obtain ⟨-, hmap, -⟩ := updateFakeReadings_some h
  rw [hmap, lookup_map_updateLoad, hl, Option.map_some'] at hl'
  injection hl' with hl'
  subst hl'
  constructor
  · intro hon
    rw [updateLoad_on_spec _ hon]
    have hv : 0 ≤ l.voltage_V := reachable_voltage_nonneg hr (id, l) (lookup_mem hl)
    have hc : (0:ℚ) ≤ max 0 (l.current_A * (1 + noise id)) := le_max_left 0 _
    have h3 : (0:ℚ) ≤ l.voltage_V * max 0 (l.current_A * (1 + noise id)) / 3600 :=
      div_nonneg (mul_nonneg hv hc) (by norm_num)
    dsimp only
    linarith
  · intro hoff
    rw [updateLoad_off _ hoff]

/-- Witness for C5: the lamp (on) across the zero-noise cycle from the seed
state. -/
theorem c5_witness :
    (lampSeed.«on» = true → lampSeed.energy_Wh ≤ lampAfter.energy_Wh) ∧
    (lampSeed.«on» = false → lampAfter.energy_Wh = lampSeed.energy_Wh) :=
  c5_energy_monotone (fun _ => 0) 0 (initialState 0) afterInit "lamp" lampSeed lampAfter
    (Reachable.init 0) seed_cycle_eq (by simp [initialState, lampSeed, List.lookup])
    (by simp [afterInit, List.lookup])

/-- C9: a POST control request with a known `loadId` never validates the
body's `on` field: the stored flag becomes its JavaScript truthiness
(`!!on`), so the string `"false"` and the number 1 turn the load on while
a missing, null or zero `on` turns it off, and the response is the 200
success in every case. -/
theorem c9_truthiness
    (noise : String → ℚ) (now : ℤ) (s : DeviceState) (loadId : String) (v : JSValue)
    (l : Load) (s' : DeviceState) (r : ControlResponse) (l' : Load)
    (hl : s.loads.lookup loadId = some l)
    (h : handleControl noise now s loadId v = some (s', r))
    (hl' : s'.loads.lookup loadId = some l') :
    r = .ok s' ∧ l'.«on» = truthy v ∧
    truthy (.str "false") = true ∧ truthy (.num 1) = true ∧
    truthy .undefined = false ∧ truthy .null = false ∧ truthy (.num 0) = false := by
  rcases handleControl_cases h with ⟨hn, -, -⟩ | ⟨l0, -, hupd, hr⟩
  · rw [hl] at hn; cases hn
  · subst hr
    refine ⟨rfl, ?_, rfl, by norm_num [truthy], rfl, rfl, by norm_num [truthy]⟩
    obtain ⟨-, hmap, -⟩ := updateFakeReadings_some hupd
    rw [hmap] at hl'
    dsimp only at hl'
    rw [lookup_map_updateLoad, lookup_map_setOnLoad, hl] at hl'
    rw [Option.map_some', Option.map_some', if_pos rfl] at hl'
    injection hl' with hl'
    rw [← hl', updateLoad_on]

/-- Witness for C9: controlling the lamp with the truthy string `"false"`
on the seed state answers 200 and leaves the lamp on. -/
theorem c9_witness :
    ControlResponse.ok afterInit = .ok afterInit ∧
    lampAfter.«on» = truthy (.str "false") ∧
    truthy (.str "false") = true ∧ truthy (.num 1) = true ∧
    truthy .undefined = false ∧ truthy .null = false ∧ truthy (.num 0) = false :=
  c9_truthiness (fun _ => 0) 0 (initialState 0) "lamp" (.str "false") lampSeed
    afterInit (.ok afterInit) lampAfter
    (by simp [initialState, lampSeed, List.lookup])
    seed_control_lamp_eq
    (by simp [afterInit, List.lookup])

/-- Evaluating the client's `reduce((sum, p) => sum + (p.power_W || 0), a)`. -/
theorem summary_fold_eq (l : List (String × ClientLoad)) : ∀ (a : ℚ),
    l.foldl (fun acc p => acc + jsOr0 p.2.power_W) a =
      a + (l.map fun p => jsOr0 p.2.power_W).sum := by
  induction l with
  | nil => intro a; simp
  | cons p t ih => intro a; simp [ih, add_assoc]

/-- Evaluating the pie chart's `reduce((s, e) => s + e.power, a)`. -/
theorem pie_fold_eq (es : List PieEntry) : ∀ (a : ℚ),
    es.foldl (fun acc e => acc + e.power) a = a + (es.map PieEntry.power).sum := by
  induction es with
  | nil => intro a; simp
  | cons e t ih => intro a; simp [ih, add_assoc]

/-- The monitored total is the sum of the clamped entry powers. -/
theorem pieTotal_eq (ls : List (String × ClientLoad)) :
    pieTotal ls = ((pieEntries ls).map PieEntry.power).sum := by
  unfold pieTotal
  rw [pie_fold_eq]
  simp

/-- Every pie entry's power is clamped nonnegative. -/
theorem pieEntries_nonneg (ls : List (String × ClientLoad)) :
    ∀ e ∈ pieEntries ls, 0 ≤ e.power := by
  intro e he
  simp only [pieEntries, List.mem_map] at he
  obtain ⟨p, hp, rfl⟩ := he
  exact le_max_left 0 _

/-- The slice fractions laid out by `mkSlices` sum to the entries' power
sum divided by the given total. -/
theorem mkSlices_map_fraction_sum (total : ℚ) (es : List PieEntry) : ∀ (a : ℚ),
    ((mkSlices total a es).map Slice.fraction).sum =
      (es.map PieEntry.power).sum / total := by
  induction es with
  | nil => intro a; simp [mkSlices]
  | cons e t ih => intro a; simp [mkSlices, ih, add_div]

/-- `mkSlices` lays its slices out contiguously from the given start. -/
theorem contiguousFrom_mkSlices (total : ℚ) (es : List PieEntry) : ∀ (a : ℚ),
    contiguousFrom a (mkSlices total a es) = true := by
  induction es with
  | nil => intro a; rfl
  | cons e t ih => intro a; simp [mkSlices, contiguousFrom, ih]

/-- Every slice produced by `mkSlices` carries the fraction of one of the
entries. -/
theorem mkSlices_mem (total : ℚ) (es : List PieEntry) : ∀ (a : ℚ) (sl : Slice),
    sl ∈ mkSlices total a es → ∃ e ∈ es, sl.fraction = e.power / total := by
  induction es with
  | nil =>
      intro a sl h
      simp [mkSlices] at h
  | cons e t ih =>
      intro a sl h
      simp only [mkSlices, List.mem_cons] at h
      rcases h with rfl | h
      · exact ⟨e, List.mem_cons_self _ _, rfl⟩
      · obtain ⟨e', he', hf⟩ := ih _ _ h
        exact ⟨e', List.mem_cons_of_mem _ he', hf⟩

/-- C4: for a status snapshot carrying a loads map, the summary prefers a
numeric server-supplied `totalPower_W` and otherwise sums `power_W` over
monitored (non-fan) loads only, while `devicesOn`/`totalDevices` count over
all loads including the fan; on the seed snapshot this gives 36 W, 2 on,
3 total. -/
theorem c4_summary_metrics
    (st : ClientStatus) (entries : List (String × ClientLoad)) (t : ℚ)
    (hl : st.loads = some entries) :
    (st.totalPower_W = some t → (summary (some st)).totalPower = t) ∧
    (st.totalPower_W = none →
      (summary (some st)).totalPower =
        ((entries.filter fun p => !(p.1 == "fan")).map fun p => jsOr0 p.2.power_W).sum) ∧
    (summary (some st)).devicesOn = (entries.filter fun p => p.2.«on»).length ∧
    (summary (some st)).totalDevices = entries.length ∧
    summary (some seedClientStatus) =
      { totalPower := 36, devicesOn := 2, totalDevices := 3, thresholdW := some 50 } := by
  obtain ⟨tp, lo, th⟩ := st
  simp only at hl
  subst hl
  refine ⟨?_, ?_, rfl, rfl, ?_⟩
  · intro htp
    simp only at htp
    subst htp
    rfl
  · intro htp
    simp only at htp
    subst htp
    have he : (summary (some
        { totalPower_W := none, loads := some entries, thresholds_highUsage_W := th })).totalPower =
        (entries.filter fun p => !(p.1 == "fan")).foldl
          (fun acc p => acc + jsOr0 p.2.power_W) 0 := rfl
    rw [he, summary_fold_eq]
    simp
  · show summary (some seedClientStatus) = _
    simp [summary, seedClientStatus, seedLoadsList, jsOr0]
    norm_num

/-- Witness for C4: the summary of the seed snapshot. -/
theorem c4_witness :
    (seedClientStatus.totalPower_W = some 0 →
      (summary (some seedClientStatus)).totalPower = 0) ∧
    (seedClientStatus.totalPower_W = none →
      (summary (some seedClientStatus)).totalPower =
        ((seedLoadsList.filter fun p => !(p.1 == "fan")).map
          fun p => jsOr0 p.2.power_W).sum) ∧
    (summary (some seedClientStatus)).devicesOn =
      (seedLoadsList.filter fun p => p.2.«on»).length ∧
    (summary (some seedClientStatus)).totalDevices = seedLoadsList.length ∧
    summary (some seedClientStatus) =
      { totalPower := 36, devicesOn := 2, totalDevices := 3, thresholdW := some 50 } :=
  c4_summary_metrics seedClientStatus seedLoadsList 0 rfl

/-- Unfolding `powerPieChart` on a present loads map. -/
theorem powerPieChart_some (ls : List (String × ClientLoad)) :
    powerPieChart (some ls) =
      if pieTotal ls ≤ 1/10000 then .placeholder
      else .chart (mkSlices (pieTotal ls) (-90) (pieEntries ls)) := rfl

/-- C6: whenever the monitored total exceeds the `1e-4` epsilon the chart
is produced, its slice fractions sum to exactly 1, and the slices run
contiguously from the top (`-90°`); at or below the epsilon no slices are
produced and the placeholder is signalled instead. -/
theorem c6_pie_fractions (ls : List (String × ClientLoad)) :
    (1/10000 < pieTotal ls →
      powerPieChart (some ls) =
        .chart (mkSlices (pieTotal ls) (-90) (pieEntries ls)) ∧
      ((mkSlices (pieTotal ls) (-90) (pieEntries ls)).map Slice.fraction).sum = 1 ∧
      contiguousFrom (-90) (mkSlices (pieTotal ls) (-90) (pieEntries ls)) = true) ∧
    (pieTotal ls ≤ 1/10000 →
      powerPieChart (some ls) = .placeholder ∧
      (powerPieChart (some ls)).slices = []) := by
  constructor
  · intro h
    have hne : pieTotal ls ≠ 0 := (lt_trans (by norm_num) h).ne'
    refine ⟨?_, ?_, contiguousFrom_mkSlices _ _ _⟩
    · rw [powerPieChart_some, if_neg (not_le.mpr h)]
    · rw [mkSlices_map_fraction_sum, ← pieTotal_eq, div_self hne]
  · intro h
    have hp : powerPieChart (some ls) = .placeholder := by
      rw [powerPieChart_some, if_pos h]
    exact ⟨hp, by rw [hp]; rfl⟩

/-- Witness for C6: the seed loads put 36 W on the chart, whose two slices
(5/6 and 1/6) sum to 1 and run contiguously from the top. -/
theorem c6_witness :
    powerPieChart (some seedLoadsList) =
      .chart (mkSlices (pieTotal seedLoadsList) (-90) (pieEntries seedLoadsList)) ∧
    ((mkSlices (pieTotal seedLoadsList) (-90)
        (pieEntries seedLoadsList)).map Slice.fraction).sum = 1 ∧
    contiguousFrom (-90)
      (mkSlices (pieTotal seedLoadsList) (-90) (pieEntries seedLoadsList)) = true :=
  (c6_pie_fractions seedLoadsList).1
    (by simp [pieTotal, pieEntries, seedLoadsList, jsOr0]; norm_num)

/-- C10: each monitored contribution is clamped to `max 0 (power_W || 0)`,
so every entry is nonnegative and every produced slice's fraction lies in
`[0, 1]`, even for snapshots with negative or absent power values. -/
theorem c10_fraction_bounds
    (ls : List (String × ClientLoad)) (slices : List Slice) (sl : Slice)
    (h : powerPieChart (some ls) = .chart slices) (hs : sl ∈ slices) :
    (∀ e ∈ pieEntries ls, 0 ≤ e.power) ∧ 0 ≤ sl.fraction ∧ sl.fraction ≤ 1 := by
  have hent : ∀ e ∈ pieEntries ls, 0 ≤ e.power := pieEntries_nonneg ls
  rw [powerPieChart_some] at h
  split at h
  · cases h
  case _ hgt =>
    injection h with h
    subst h
    have htot : 0 < pieTotal ls := lt_trans (by norm_num) (not_le.mp hgt)
    obtain ⟨e, he, hf⟩ := mkSlices_mem (pieTotal ls) (pieEntries ls) (-90) sl hs
    refine ⟨hent, ?_, ?_⟩
    · rw [hf]
      exact div_nonneg (hent e he) htot.le
    · rw [hf, div_le_one htot, pieTotal_eq]
      refine List.single_le_sum ?_ _ (List.mem_map_of_mem PieEntry.power he)
      intro x hx
      obtain ⟨e', he', rfl⟩ := List.mem_map.mp hx
      exact hent e' he'

/-- Witness for C10: on a loads map with a negative, an absent and a 10 W
power reading, the heater slice's fraction is 1 and every entry is
clamped nonnegative. -/
theorem c10_witness :
    (∀ e ∈ pieEntries oddLoads, 0 ≤ e.power) ∧
    0 ≤ heaterSlice.fraction ∧ heaterSlice.fraction ≤ 1 :=
  c10_fraction_bounds oddLoads oddSlices heaterSlice
    (by
      rw [powerPieChart_some]
      simp [pieTotal, pieEntries, oddLoads, oddSlices, heaterSlice, jsOr0,
        jsOrStr, mkSlices]
      norm_num [mkSlices])
    (by simp [oddSlices])

/-- C7: once the polling effect is torn down, the cancellation flag is set
and the interval timer is cleared, so a scheduled tick issues no further
request; and a poll response processed after teardown — also one whose
request was issued before teardown, since the handler reads the flag at
response time — leaves `status`, `error`, `lastUpdated` and `loading`
exactly as they were, whether it is a success or a failure. -/
theorem c7_teardown_discards (c : ClientState) (data : ClientStatus) (now : ℤ) :
    fetchSuccess data now (teardownClient c) = teardownClient c ∧
    fetchFailure (teardownClient c) = teardownClient c ∧
    (teardownClient c).cancelled = true ∧
    tickIssuesRequest (teardownClient c) = false := by
  refine ⟨?_, ?_, rfl, rfl⟩
  · simp [fetchSuccess, teardownClient]
  · simp [fetchFailure, teardownClient]

/-- C8 as stated is false at a concrete failed toggle: toggling the
(on) lamp off with a failing control request reports the command error,
but the lamp's local `on` flag is still `true` — it is not left at the
optimistic value `false` the claim asserts, because the update is only
applied after a successful response. -/
theorem c8_counterexample :
    clientLoadOn (toggleLoad c8Client "lamp" true .failure).2 "lamp" = some true ∧
    clientLoadOn (toggleLoad c8Client "lamp" true .failure).2 "lamp" ≠ some false ∧
    (toggleLoad c8Client "lamp" true .failure).2.error =
      some "Failed to send command" := by
  refine ⟨?_, ?_, ?_⟩ <;>
    simp [toggleLoad, c8Client, clientLoadOn, seedClientStatus, seedLoadsList,
      List.lookup]

/-- The optimistic write targets exactly the toggled key, whether it is
present (flag replaced in place) or absent (entry appended). -/
theorem jsSetLoadOn_lookup_on (ls : List (String × ClientLoad)) (k : String)
    (v : Bool) :
    ((jsSetLoadOn ls k v).lookup k).map (fun l => l.«on») = some v := by
  unfold jsSetLoadOn
  split
  case isTrue hsome =>
    rw [lookup_map_setOnClient]
    obtain ⟨l, hl⟩ := Option.isSome_iff_exists.mp hsome
    rw [hl]
    simp
  case isFalse hnone =>
    have hn : ls.lookup k = none := by
      cases h : ls.lookup k with
      | none => rfl
      | some l => rw [h] at hnone; exact absurd rfl hnone
    rw [lookup_append_of_none hn]
    simp [List.lookup]

/-- C8, amended: a fan toggle is a no-op (no request, no state change); a
non-fan toggle sends `{loadId, on: !currentOn}`; on success the local `on`
flag is immediately set to the new value and the error clears, without
waiting for the next poll; on failure a command error is reported and no
local update is applied — the flag keeps its previous value (it is only
written on success, so there is nothing to roll back). -/
theorem c8_toggle_behaviour
    (c : ClientState) (loadId : String) (curr : Bool) (prev : ClientStatus)
    (hf : (loadId == "fan") = false) :
    toggleLoad c "fan" curr .success = (none, c) ∧
    toggleLoad c "fan" curr .failure = (none, c) ∧
    (toggleLoad c loadId curr .success).1 = some { loadId := loadId, «on» := !curr } ∧
    (toggleLoad c loadId curr .failure).1 = some { loadId := loadId, «on» := !curr } ∧
    (c.status = some prev →
      clientLoadOn (toggleLoad c loadId curr .success).2 loadId = some (!curr)) ∧
    (toggleLoad c loadId curr .success).2.error = none ∧
    (toggleLoad c loadId curr .failure).2 =
      { c with error := some "Failed to send command" } := by
  refine ⟨?_, ?_, ?_, ?_, ?_, ?_, ?_⟩
  · simp [toggleLoad]
  · simp [toggleLoad]
  · simp [toggleLoad, hf]
  · simp [toggleLoad, hf]
  · intro hc
    have h2 := jsSetLoadOn_lookup_on
      (match prev.loads with
       | none => []
       | some ls => ls) loadId (!curr)
    simp [toggleLoad, hf, hc, clientLoadOn]
    simpa using h2
  · simp [toggleLoad, hf]
  · simp [toggleLoad, hf]

/-- Witness for C8 (amended): toggling the lamp from the seed snapshot. -/
theorem c8_witness :
    toggleLoad c8Client "fan" true .success = (none, c8Client) ∧
    (toggleLoad c8Client "lamp" true .success).1 =
      some { loadId := "lamp", «on» := false } ∧
    clientLoadOn (toggleLoad c8Client "lamp" true .success).2 "lamp" = some false ∧
    (toggleLoad c8Client "lamp" true .failure).2 =
      { c8Client with error := some "Failed to send command" } := by
  have h := c8_toggle_behaviour c8Client "lamp" true seedClientStatus (by decide)
  exact ⟨h.1, h.2.2.1, h.2.2.2.2.1 rfl, h.2.2.2.2.2.2⟩
